import Mathlib

/- Verification development for the ScribeFramework template pipeline:
   the .stpl lexer and parser (scribe/parser/lexer.py, parser.py, ast_nodes.py),
   the sandboxed execution namespace (scribe/execution/builtins.py,
   scribe/execution/context.py) and the request handler glue (scribe/app.py). -/

set_option maxRecDepth 8192

namespace Scribe

/-- Shallow embedding of the Python runtime values the core manipulates.
Only type distinctions observed by the code matter: `types.ModuleType`,
`types.FunctionType` (user-defined functions), builtin functions such as
`len` (which are NOT `types.FunctionType`), classes (`inspect.isclass`),
exception instances, and plain data. -/
inductive Value where
  | vnone
  | vbool (b : Bool)
  | vint (n : Int)
  | vstr (s : String)
  | vmodule (name : String)
  | vbuiltinFun (name : String)
  | vpyFun (name : String)
  | vclass (name : String)
  | vexc (cls : String) (payload : Value)
  | vobj (tag : String)
deriving DecidableEq, Repr

/-- A Python dict used as an execution namespace: association list preserving
insertion order, with update-in-place semantics on existing keys. -/
abbrev Namespace := List (String × Value)

/-- `d[k] = v` on a Python dict: replace the first (unique) binding of `k` in
place, else append a fresh binding at the end (insertion order). -/
def nsSet : Namespace → String → Value → Namespace
  | [], k, v => [(k, v)]
  | p :: t, k, v => if p.1 = k then (k, v) :: t else p :: nsSet t k v

/-- `d.update(l)`: apply `nsSet` for each pair of `l`, left to right. -/
def nsUpdate (ns : Namespace) (l : List (String × Value)) : Namespace :=
  l.foldl (fun a p => nsSet a p.1 p.2) ns

/-- `d.get(k)`: value of the first binding of `k`, if any. -/
def nsGet (ns : Namespace) (k : String) : Option Value :=
  (ns.find? (fun p => p.1 = k)).map Prod.snd

/-- The dictionary returned by `get_safe_builtins` (execution/builtins.py),
entry for entry in source order, each value tagged with its Python kind
(class, builtin function, or plain value). -/
def safeBuiltins : Namespace :=
  [ ("int", .vclass "int"), ("float", .vclass "float"), ("str", .vclass "str"),
    ("bool", .vclass "bool"), ("list", .vclass "list"), ("dict", .vclass "dict"),
    ("tuple", .vclass "tuple"), ("set", .vclass "set"),
    ("frozenset", .vclass "frozenset"), ("bytes", .vclass "bytes"),
    ("bytearray", .vclass "bytearray"),
    ("isinstance", .vbuiltinFun "isinstance"), ("issubclass", .vbuiltinFun "issubclass"),
    ("type", .vclass "type"), ("hasattr", .vbuiltinFun "hasattr"),
    ("getattr", .vbuiltinFun "getattr"), ("setattr", .vbuiltinFun "setattr"),
    ("delattr", .vbuiltinFun "delattr"), ("callable", .vbuiltinFun "callable"),
    ("len", .vbuiltinFun "len"), ("range", .vclass "range"),
    ("enumerate", .vclass "enumerate"), ("zip", .vclass "zip"),
    ("sorted", .vbuiltinFun "sorted"), ("reversed", .vclass "reversed"),
    ("slice", .vclass "slice"),
    ("abs", .vbuiltinFun "abs"), ("min", .vbuiltinFun "min"),
    ("max", .vbuiltinFun "max"), ("sum", .vbuiltinFun "sum"),
    ("round", .vbuiltinFun "round"), ("pow", .vbuiltinFun "pow"),
    ("divmod", .vbuiltinFun "divmod"),
    ("all", .vbuiltinFun "all"), ("any", .vbuiltinFun "any"),
    ("filter", .vclass "filter"), ("map", .vclass "map"),
    ("repr", .vbuiltinFun "repr"), ("ascii", .vbuiltinFun "ascii"),
    ("chr", .vbuiltinFun "chr"), ("ord", .vbuiltinFun "ord"),
    ("format", .vbuiltinFun "format"),
    ("object", .vclass "object"), ("property", .vclass "property"),
    ("staticmethod", .vclass "staticmethod"), ("classmethod", .vclass "classmethod"),
    ("None", .vnone), ("True", .vbool true), ("False", .vbool false),
    ("Ellipsis", .vobj "Ellipsis"), ("NotImplemented", .vobj "NotImplemented"),
    ("Exception", .vclass "Exception"), ("ValueError", .vclass "ValueError"),
    ("TypeError", .vclass "TypeError"), ("KeyError", .vclass "KeyError"),
    ("IndexError", .vclass "IndexError"), ("AttributeError", .vclass "AttributeError"),
    ("RuntimeError", .vclass "RuntimeError"), ("StopIteration", .vclass "StopIteration"),
    ("hash", .vbuiltinFun "hash"), ("id", .vbuiltinFun "id"),
    ("next", .vbuiltinFun "next"), ("iter", .vbuiltinFun "iter"),
    ("vars", .vbuiltinFun "vars"), ("dir", .vbuiltinFun "dir"),
    ("print", .vbuiltinFun "print") ]

/-- `ExecutionContext._build_globals` followed by `_add_safe_imports`
(execution/context.py lines 62-107): safe builtins, then the four framework
objects, then `update(helpers)`, then `update(route_params)`, then the four
pre-imported modules datetime, json, re, math. -/
def buildGlobals (db session request g : Value)
    (helpers routeParams : List (String × Value)) : Namespace :=
  let ns := safeBuiltins
  let ns := nsSet ns "db" db
  let ns := nsSet ns "session" session
  let ns := nsSet ns "request" request
  let ns := nsSet ns "g" g
  let ns := nsUpdate ns helpers
  let ns := nsUpdate ns routeParams
  let ns := nsSet ns "datetime" (.vmodule "datetime")
  let ns := nsSet ns "json" (.vmodule "json")
  let ns := nsSet ns "re" (.vmodule "re")
  nsSet ns "math" (.vmodule "math")

/-- `isinstance(v, types.ModuleType)`. -/
def isModuleV : Value → Bool
  | .vmodule _ => true
  | _ => false

/-- `isinstance(v, types.FunctionType)`: true only for user-defined Python
functions; builtin functions such as `len` are `BuiltinFunctionType` and
therefore excluded, exactly as in CPython. -/
def isPyFunV : Value → Bool
  | .vpyFun _ => true
  | _ => false

/-- `inspect.isclass(v)`. -/
def isClassV : Value → Bool
  | .vclass _ => true
  | _ => false

/-- A value that is a function in the ordinary sense (user-defined or
builtin callable function object). -/
def isFunctionValue : Value → Bool
  | .vpyFun _ => true
  | .vbuiltinFun _ => true
  | _ => false

/-- Python `key.startswith('_')`. -/
def startsUnderscore (k : String) : Bool :=
  match k.data with
  | c :: _ => c = '_'
  | [] => false

/-- The per-entry filter of `ExecutionContext.get_variables`
(execution/context.py lines 229-255), tests in source order: key in
safe builtins, key a framework object, value a module, value a
`types.FunctionType`, value a class, key starting with an underscore. -/
def keepVar (k : String) (v : Value) : Bool :=
  !(nsGet safeBuiltins k).isSome
  && !(k == "db" || k == "session" || k == "request" || k == "g")
  && !(isModuleV v) && !(isPyFunV v) && !(isClassV v)
  && !(startsUnderscore k)

/-- `ExecutionContext.get_variables`: the namespace entries passing the
filter, in dict (insertion) order. -/
def getVariables (ns : Namespace) : List (String × Value) :=
  ns.filter (fun p => keepVar p.1 p.2)

/-! ### Path Pattern Analyzer (parser/ast_nodes.py, `Route.__post_init__`) -/

/-- `\w` of the route-placeholder regex (ASCII word character). -/
def isWordChar (c : Char) : Bool := c.isAlphanum || c = '_'

/-- `\s` of the Python regexes used by the parser. -/
def isPySpace (c : Char) : Bool :=
  c = ' ' || c = '\t' || c = '\n' || c = '\r' || c = Char.ofNat 11 || c = Char.ofNat 12

/-- The apostrophe character (single quote). -/
def squoteChar : Char := Char.ofNat 39

/-- Either quote character, as in the character class of the parser regexes. -/
def isQuote (c : Char) : Bool := c = '"' || c = squoteChar

/-- Python `str.strip()` on the whitespace it strips by default. -/
def pyStrip (s : String) : String :=
  String.mk (((s.data.dropWhile isPySpace).reverse.dropWhile isPySpace).reverse)

/-- `str.upper()` on one character (ASCII, as in the HTTP verbs involved). -/
def asciiUpperChar (c : Char) : Char :=
  if 97 ≤ c.toNat && c.toNat ≤ 122 then Char.ofNat (c.toNat - 32) else c

/-- Python `str.upper()`. -/
def pyUpper (s : String) : String := String.mk (s.data.map asciiUpperChar)

/-- One attempt of the regex `<(?:(?P<type>\w+):)?(?P<name>\w+)>` at the
position right after an opening angle bracket: the optional `type` group, the
`name` group, and the characters following the closing bracket.  Regex
backtracking collapses to this case split because `\w+` runs are maximal. -/
def phMatchAfterLt (rest : List Char) : Option (Option String × String × List Char) :=
  let w1 := rest.takeWhile isWordChar
  if w1.isEmpty then none
  else
    match rest.drop w1.length with
    | '>' :: r => some (none, String.mk w1, r)
    | ':' :: r2 =>
      let w2 := r2.takeWhile isWordChar
      if w2.isEmpty then none
      else
        match r2.drop w2.length with
        | '>' :: r => some (some (String.mk w1), String.mk w2, r)
        | _ => none
    | _ => none

/-- `re.finditer` of the placeholder pattern: left-to-right scan, resuming
after each match.  Fueled; the fuel `length + 1` always suffices because
every step consumes at least one character. -/
def findPlaceholders : Nat → List Char → List (Option String × String)
  | 0, _ => []
  | _ + 1, [] => []
  | f + 1, c :: rest =>
    if c = '<' then
      match phMatchAfterLt rest with
      | some (t, n, r) => (t, n) :: findPlaceholders f r
      | none => findPlaceholders f rest
    else findPlaceholders f rest

/-- All placeholders of a path, with their optional type prefixes. -/
def pathPlaceholders (path : String) : List (Option String × String) :=
  findPlaceholders (path.length + 1) path.data

/-- `Route.__post_init__`: `[match.group('name') for match in matches]` —
the code keeps only the name group of each placeholder. -/
def pathParamsCode (path : String) : List String :=
  (pathPlaceholders path).map (fun p => p.2)

/-- Modelled from the spec: `pathParameters` as the ordered list of
`{name, typeTag}` pairs derived from `path`, typeTag defaulting to
`"string"` when the type prefix is omitted (spec §3 and §4.3).  Used to
compare the specified data against what the code stores. -/
def pathParamsSpec (path : String) : List (String × String) :=
  (pathPlaceholders path).map (fun p => (p.2, p.1.getD "string"))

/-! ### Route AST node (parser/ast_nodes.py, `Route`) -/

structure Route where
  path : String
  methods : List String
  decorators : List String
  python_code : Option String
  template : Option String
  line_number : Nat
  source_file : Option String
  path_parameters : List String
deriving DecidableEq, Repr

/-- Route construction as the dataclass performs it: `__post_init__` fills
`path_parameters` from the path. -/
def mkRoute (path : String) (methods : List String) (decorators : List String)
    (python_code : Option String) (template : Option String)
    (line_number : Nat) (source_file : Option String := none) : Route :=
  { path, methods, decorators, python_code, template, line_number, source_file,
    path_parameters := pathParamsCode path }

/-! ### Route decorator sub-parsing (parser/parser.py, `_parse_route_decorator`) -/

/-- Greedy `(.*)` followed by `\)` (DOTALL): the characters before the last
closing parenthesis, if one exists. -/
def beforeLastClose (r : List Char) : Option (List Char) :=
  match (r.reverse).dropWhile (fun c => c != ')') with
  | ')' :: restRev => some restRev.reverse
  | _ => none

/-- `re.match(r'@route\s*\((.*)\)', text, re.DOTALL)`: the raw argument text
of the decorator call, if the shape matches. -/
def routeArgs (s : String) : Option String :=
  let cs := s.data
  if cs.take 6 = "@route".data then
    match (cs.drop 6).dropWhile isPySpace with
    | '(' :: r => (beforeLastClose r).map String.mk
    | _ => none
  else none

/-- Anchored `['"](.*?)['"]` (no DOTALL): a leading quoted run closed by the
next quote of either kind before any newline. -/
def leadingQuoted (cs : List Char) : Option String :=
  match cs with
  | c :: r =>
    if isQuote c then
      let content := r.takeWhile (fun ch => !(isQuote ch) && ch != '\n')
      match r.drop content.length with
      | c2 :: _ => if isQuote c2 then some (String.mk content) else none
      | [] => none
    else none
  | [] => none

/-- One attempt of `methods\s*=\s*\[(.*?)\]` at the current position. -/
def methodsMatchAt (cs : List Char) : Option (List Char) :=
  if cs.take 7 = "methods".data then
    match (cs.drop 7).dropWhile isPySpace with
    | '=' :: r2 =>
      match r2.dropWhile isPySpace with
      | '[' :: r4 =>
        let inner := r4.takeWhile (fun ch => ch != ']' && ch != '\n')
        match r4.drop inner.length with
        | ']' :: _ => some inner
        | _ => none
      | _ => none
    | _ => none
  else none

/-- `re.search` of the methods pattern: first position where it matches. -/
def searchMethods : Nat → List Char → Option (List Char)
  | 0, _ => none
  | _ + 1, [] => none
  | f + 1, l@(_ :: rest) =>
    match methodsMatchAt l with
    | some inner => some inner
    | none => searchMethods f rest

/-- `re.findall(r'['"](.*?)['"]', s)`: non-overlapping quoted runs, a failed
opening quote resuming the scan right after it. -/
def findAllQuoted : Nat → List Char → List String
  | 0, _ => []
  | _ + 1, [] => []
  | f + 1, c :: rest =>
    if isQuote c then
      let content := rest.takeWhile (fun ch => !(isQuote ch) && ch != '\n')
      match rest.drop content.length with
      | c2 :: r2 =>
        if isQuote c2 then String.mk content :: findAllQuoted f r2
        else findAllQuoted f rest
      | [] => findAllQuoted f rest
    else findAllQuoted f rest

/-- The methods computation of `_parse_route_decorator`: `['GET']` by
default, else the upper-cased quoted tokens of the `methods=[...]` keyword
argument when at least one is present. -/
def methodsOf (args : String) : List String :=
  match searchMethods (args.length + 1) args.data with
  | none => ["GET"]
  | some inner =>
    match findAllQuoted (inner.length + 1) inner with
    | [] => ["GET"]
    | ms => ms.map pyUpper

/-- `TemplateParser._parse_route_decorator` (parser/parser.py lines 153-191):
path from the leading quoted literal, methods defaulting to `['GET']`,
upper-cased when a methods keyword argument with quoted tokens is present. -/
def parseRouteDecorator (s : String) : Except String (String × List String) :=
  match routeArgs s with
  | none => .error ("Invalid @route decorator syntax: " ++ s)
  | some args0 =>
    let args := pyStrip args0
    match leadingQuoted args.data with
    | none => .error ("Could not extract path from @route decorator: " ++ s)
    | some path => .ok (path, methodsOf args)

/-- The methods keyword search as applied by `parseRouteDecorator`, for
stating the default-methods property. -/
def methodsSearchOf (s : String) : Option (List Char) :=
  (routeArgs s).bind
    (fun a => searchMethods ((pyStrip a).length + 1) (pyStrip a).data)

/-! ### Token Stream Scanner (parser/lexer.py, `TemplateLexer`) -/

inductive TokType where
  | ROUTE_DECORATOR
  | DECORATOR
  | PYTHON_BLOCK_START
  | PYTHON_BLOCK_END
  | PYTHON_CODE
  | TEMPLATE_CONTENT
  | EOF
deriving DecidableEq, Repr

structure Tok where
  type : TokType
  value : String
  line : Nat
  col : Nat
deriving DecidableEq, Repr

/-- The single lexer failure: `SyntaxError("Unclosed Python block starting at
line {code_start_line}, column {code_start_col}")`, carried structurally. -/
structure LexErr where
  line : Nat
  col : Nat
deriving DecidableEq, Repr

/-- Opening brace character. -/
def lbraceChar : Char := Char.ofNat 123

/-- Closing brace character. -/
def rbraceChar : Char := Char.ofNat 125

/-- Horizontal whitespace as used by the lexer (' ' and tab). -/
def isHTab (c : Char) : Bool := c = ' ' || c = '\t'

/-- Advance a (line, column) pair over a run of characters, as the lexer's
per-character bookkeeping does. -/
def advLC (cs : List Char) (line col : Nat) : Nat × Nat :=
  cs.foldl (fun (p : Nat × Nat) c => if c = '\n' then (p.1 + 1, 1) else (p.1, p.2 + 1))
    (line, col)

/-- The decorator line scanner of `_check_decorator` (lexer.py lines 103-132):
consume characters tracking parenthesis depth and quoted-string state until an
unparenthesised newline outside a string, or end of input.  Returns the
consumed characters and the rest (empty, or starting with that newline). -/
def decoScan : List Char → Option Char → Int → Bool → Char → (List Char × List Char)
  | [], _, _, _, _ => ([], [])
  | c :: r, prev, paren, inStr, strCh =>
    let qh := (c = '"' || c = squoteChar) && !(prev = some '\\')
    let st : Bool × Char :=
      if qh then
        if !inStr then (true, c)
        else if c = strCh then (false, strCh) else (inStr, strCh)
      else (inStr, strCh)
    if !st.1 && c = '\n' && paren = 0 then ([], c :: r)
    else
      let paren' := if !st.1 && c = '(' then paren + 1
                    else if !st.1 && c = ')' then paren - 1 else paren
      let res := decoScan r (some c) paren' st.1 st.2
      (c :: res.1, res.2)

/-- The scan of `_check_python_block_start` for the closing marker: collect
the code characters until a `$`-closing-brace pair, tracking line/column; the
returned line/column locate the `$` of the closing marker.  `none` when no
closing marker exists before end of input. -/
def pyScan : List Char → Nat → Nat → Option (List Char × Nat × Nat × List Char)
  | [], _, _ => none
  | [_], _, _ => none
  | c1 :: c2 :: r, line, col =>
    if c1 = '$' && c2 = rbraceChar then some ([], line, col, r)
    else
      let lc := if c1 = '\n' then (line + 1, 1) else (line, col + 1)
      (pyScan (c2 :: r) lc.1 lc.2).map (fun q => (c1 :: q.1, q.2.1, q.2.2.1, q.2.2.2))

/-- `_is_at_decorator`: at a position whose line so far is all horizontal
whitespace (`w`), with the next non-ws character an `@`. -/
def atDec (w : Bool) (cs : List Char) : Bool :=
  w && (match cs.dropWhile isHTab with
        | c :: _ => c = '@'
        | [] => false)

/-- The two-character script-block opening marker test. -/
def atPyStart (cs : List Char) : Bool :=
  match cs with
  | c1 :: c2 :: _ => c1 = lbraceChar && c2 = '$'
  | _ => false

/-- `_collect_template_content`: consume characters until (without consuming)
a line-start decorator or a script-block opening marker; returns collected
characters, updated line/column/line-whitespace state, and the rest. -/
def collectT : List Char → Nat → Nat → Bool → (List Char × Nat × Nat × Bool × List Char)
  | [], line, col, w => ([], line, col, w, [])
  | c :: rest, line, col, w =>
    if atDec w (c :: rest) || atPyStart (c :: rest) then ([], line, col, w, c :: rest)
    else
      let st : Nat × Nat × Bool :=
        if c = '\n' then (line + 1, 1, true) else (line, col + 1, w && isHTab c)
      let res := collectT rest st.1 st.2.1 st.2.2
      (c :: res.1, res.2.1, res.2.2.1, res.2.2.2.1, res.2.2.2.2)

/-- The main loop of `TemplateLexer.tokenize`.  `w` is the all-whitespace-
so-far-on-this-line flag (replacing the source's backward scan), `prev` the
previously consumed character (for the escape check in decorator scanning).
Fueled: every iteration of the source loop consumes at least one character,
so fuel `length + 1` suffices; the fuel guard is unreachable. -/
def lexLoop : Nat → List Char → Nat → Nat → Bool → Option Char → Except LexErr (List Tok)
  | 0, _, _, _, _, _ => .error ⟨0, 0⟩
  | f + 1, rest, line, col, w, prev =>
    match rest with
    | [] => .ok [⟨.EOF, "", line, col⟩]
    | _ =>
      let ws := rest.takeWhile isHTab
      let afterWs := rest.drop ws.length
      match afterWs with
      | '@' :: _ =>
        let prevAt := if ws.isEmpty then prev else ws.getLast?
        let res := decoScan afterWs prevAt 0 false ' '
        let text := pyStrip (String.mk res.1)
        let ttype := if text.data.take 6 = "@route".data then TokType.ROUTE_DECORATOR
                     else TokType.DECORATOR
        let tok : Tok := ⟨ttype, text, line, col + ws.length⟩
        let lc := advLC (ws ++ res.1) line col
        match res.2 with
        | '\n' :: r3 => (lexLoop f r3 (lc.1 + 1) 1 true (some '\n')).map (fun ts => tok :: ts)
        | r2 => (lexLoop f r2 lc.1 lc.2 false ((res.1.getLast?).orElse (fun _ => prev))).map
            (fun ts => tok :: ts)
      | _ =>
        if atPyStart rest then
          match pyScan (rest.drop 2) line (col + 2) with
          | none => .error ⟨line, col + 2⟩
          | some (code, le, ce, rr) =>
            let startTok : Tok := ⟨.PYTHON_BLOCK_START, String.mk [lbraceChar, '$'], line, col⟩
            let codeTok : Tok := ⟨.PYTHON_CODE, String.mk code, line, col + 2⟩
            let endTok : Tok := ⟨.PYTHON_BLOCK_END, String.mk ['$', rbraceChar], le, ce⟩
            (lexLoop f rr le (ce + 2) false (some rbraceChar)).map
              (fun ts => startTok :: codeTok :: endTok :: ts)
        else
          let res := collectT rest line col w
          match res.1 with
          | [] => lexLoop f res.2.2.2.2 res.2.1 res.2.2.1 res.2.2.2.1 prev
          | content =>
            (lexLoop f res.2.2.2.2 res.2.1 res.2.2.1 res.2.2.2.1
                ((content.getLast?).orElse (fun _ => prev))).map
              (fun ts => ⟨.TEMPLATE_CONTENT, String.mk content, line, col⟩ :: ts)

/-- `TemplateLexer.tokenize`. -/
def tokenize (content : String) : Except LexErr (List Tok) :=
  lexLoop (content.length + 1) content.data 1 1 true none

/-! ### Route AST Builder (parser/parser.py, `TemplateParser`) -/

inductive ParseErr where
  | lexErr (line col : Nat)
  | synErr (msg : String)
deriving DecidableEq, Repr

/-- `decorator_text.lstrip('@').strip()` in `_parse_decorator`. -/
def stripDecorator (s : String) : String :=
  pyStrip (String.mk (s.data.dropWhile (fun c => c = '@')))

/-- The template-content collection loop at the end of `_parse_route`:
template runs until the next route decorator or end of input; any other
token type is a syntax error. -/
def templateParts : List Tok → Except ParseErr (List String × List Tok)
  | [] => .ok ([], [])
  | t :: r =>
    if t.type = TokType.ROUTE_DECORATOR || t.type = TokType.EOF then .ok ([], t :: r)
    else if t.type = TokType.TEMPLATE_CONTENT then
      (templateParts r).map (fun q => (t.value :: q.1, q.2))
    else .error (.synErr ("Unexpected token at line " ++ toString t.line))

/-- The optional script-block consumption of `_parse_route`. -/
def parsePyBlock : List Tok → Except ParseErr (Option String × List Tok)
  | [] => .ok (none, [])
  | tk :: r3 =>
    if tk.type = TokType.PYTHON_BLOCK_START then
      match r3 with
      | ck :: r4 =>
        if ck.type = TokType.PYTHON_CODE then
          match r4 with
          | ek :: r5 =>
            if ek.type = TokType.PYTHON_BLOCK_END then .ok (some ck.value, r5)
            else .error (.synErr ("Expected Python block end at line " ++ toString ek.line))
          | [] => .error (.synErr "Expected Python block end at EOF")
        else if ck.type = TokType.PYTHON_BLOCK_END then .ok (none, r4)
        else .error (.synErr ("Expected Python block end at line " ++ toString ck.line))
      | [] => .error (.synErr "Expected Python block end at EOF")
    else .ok (none, tk :: r3)

/-- The `_parse_route` loop of `TemplateParser.parse`: skip file-level
template content, require a route decorator, absorb plain decorators, an
optional script block, and trailing template content, repeated to EOF. -/
def parseRoutes : Nat → List Tok → Except ParseErr (List Route)
  | 0, _ => .error (.synErr "fuel")
  | f + 1, toks =>
    let t1 := toks.dropWhile (fun t => t.type = TokType.TEMPLATE_CONTENT)
    match t1 with
    | [] => .ok []
    | t :: rest =>
      if t.type = TokType.EOF then .ok []
      else if t.type = TokType.ROUTE_DECORATOR then
        match parseRouteDecorator t.value with
        | .error m => .error (.synErr m)
        | .ok pm =>
          let decToks := rest.takeWhile (fun tk => tk.type = TokType.DECORATOR)
          let rest2 := rest.drop decToks.length
          let decs := decToks.map (fun tk => stripDecorator tk.value)
          match parsePyBlock rest2 with
          | .error e => .error e
          | .ok (code, rest3) =>
            match templateParts rest3 with
            | .error e => .error e
            | .ok (parts, rest4) =>
              let tmpl := String.mk (parts.foldr (fun s acc => s.data ++ acc) [])
              match parseRoutes f rest4 with
              | .error e => .error e
              | .ok routes =>
                .ok (mkRoute pm.1 pm.2 decs code (some tmpl) t.line :: routes)
      else .error (.synErr ("Expected @route decorator, got other token at line " ++
        toString t.line))

/-- `TemplateParser.parse` (without a filename): tokenize, then build the
route list. -/
def parse (content : String) : Except ParseErr (List Route) :=
  match tokenize content with
  | .error e => .error (.lexErr e.line e.col)
  | .ok toks => parseRoutes (toks.length + 1) toks

/-! ### Control-Flow Rewriter (execution/context.py, `execute` lines 130-173) -/

/-- A `\b` word boundary to the left of the current position, given the
previous character. -/
def boundaryOk : Option Char → Bool
  | none => true
  | some p => !isWordChar p

/-- The literal `return` at the head of the character stream. -/
def startsReturn (l : List Char) : Bool := l.take 6 = "return".data

/-- `\breturn\b` at the head (both boundaries), for the detection regex
`re.search(r'\breturn\b', code)`. -/
def retBothBounds (l : List Char) : Bool :=
  startsReturn l &&
    (match l.drop 6 with
     | [] => true
     | c :: _ => !isWordChar c)

/-- Scan for `\breturn\b` tracking the previous character. -/
def hasRetAux : Option Char → List Char → Bool
  | _, [] => false
  | prev, c :: rest => (boundaryOk prev && retBothBounds (c :: rest)) || hasRetAux (some c) rest

/-- `bool(re.search(r'\breturn\b', code))` — the early-exit detection. -/
def hasReturnKw (code : String) : Bool := hasRetAux none code.data

/-- Greedy backtracking split for `\s+(.+)$` after the keyword: the largest
`k` between 1 and the maximal whitespace-run length such that the character
at offset `k` exists and is not a newline (there `(.+)` starts). -/
def pickExprStart (after : List Char) : Nat → Option Nat
  | 0 => none
  | k + 1 =>
    match after.get? (k + 1) with
    | some ch => if ch ≠ '\n' then some (k + 1) else pickExprStart after k
    | none => pickExprStart after k

/-- `re.sub(r'\breturn\s+(.+)$', r'raise __ScribeReturn__(\1)', code,
flags=re.MULTILINE)`: left-to-right non-overlapping replacement, resuming
after each match end. -/
def sub1Aux : Nat → Option Char → List Char → List Char
  | 0, _, l => l
  | _ + 1, _, [] => []
  | f + 1, prev, c :: rest =>
    if boundaryOk prev && startsReturn (c :: rest) then
      let after := (c :: rest).drop 6
      let wsLen := (after.takeWhile isPySpace).length
      match pickExprStart after wsLen with
      | some k =>
        let tail := after.drop k
        let expr := tail.takeWhile (fun ch => ch ≠ '\n')
        "raise __ScribeReturn__(".data ++ expr ++ [')'] ++
          sub1Aux f expr.getLast? (tail.drop expr.length)
      | none => c :: sub1Aux f (some c) rest
    else c :: sub1Aux f (some c) rest

/-- The value-carrying rewrite. -/
def subReturnExpr (code : String) : String :=
  String.mk (sub1Aux (code.length + 1) none code.data)

/-- Greedy backtracking split for `\s*$` (MULTILINE) after the keyword: the
largest `k` up to the whitespace-run length at which end of input or a
newline follows. -/
def pickEndK (after : List Char) : Nat → Option Nat
  | 0 =>
    match after.head? with
    | none => some 0
    | some ch => if ch = '\n' then some 0 else none
  | k + 1 =>
    match after.get? (k + 1) with
    | none => some (k + 1)
    | some ch => if ch = '\n' then some (k + 1) else pickEndK after k

/-- `re.sub(r'\breturn\s*$', r'raise __ScribeReturn__(None)', code,
flags=re.MULTILINE)` — the bare-return rewrite. -/
def sub2Aux : Nat → Option Char → List Char → List Char
  | 0, _, l => l
  | _ + 1, _, [] => []
  | f + 1, prev, c :: rest =>
    if boundaryOk prev && startsReturn (c :: rest) then
      let after := (c :: rest).drop 6
      let wsLen := (after.takeWhile isPySpace).length
      match pickEndK after wsLen with
      | some k =>
        "raise __ScribeReturn__(None)".data ++
          sub2Aux f (((after.take k).getLast?).orElse (fun _ => some 'n')) (after.drop k)
      | none => c :: sub2Aux f (some c) rest
    else c :: sub2Aux f (some c) rest

/-- The bare-return rewrite on strings. -/
def subBareReturn (code : String) : String :=
  String.mk (sub2Aux (code.length + 1) none code.data)

/-- Split a character stream into lines at newlines. -/
def splitLinesAux : List Char → List Char → List (List Char)
  | [], acc => [acc.reverse]
  | '\n' :: r, acc => acc.reverse :: splitLinesAux r []
  | c :: r, acc => splitLinesAux r (c :: acc)

/-- Join lines with newlines (inverse of the split). -/
def joinLines : List (List Char) → List Char
  | [] => []
  | [l] => l
  | l :: rest => l ++ '\n' :: joinLines rest

/-- `ExecutionContext._indent_code` (context.py lines 191-205): prefix each
line having non-whitespace content with `spaces` spaces, leave blank lines
untouched. -/
def indentCode (code : String) (spaces : Nat) : String :=
  String.mk (joinLines ((splitLinesAux code.data []).map
    (fun l => if l.all isPySpace then l else List.replicate spaces ' ' ++ l)))

/-- The wrapping f-string of `execute` (context.py lines 165-171). -/
def wrapCode (transformed : String) : String :=
  "\ntry:\n" ++ indentCode transformed 4 ++
    "\n    __scribe_return__ = None\nexcept __ScribeReturn__ as __e__:\n    __scribe_return__ = __e__.value\n"

/-! ### Execution Driver: a small-step model of `exec` on the statement and
expression subset that the framework's own generated code and the template
scripts under scrutiny use (assignments, `if` blocks, `raise`, the
`try/except NAME as NAME` wrapper, names, literals, a single attribute
access, and constructor calls of a class in the namespace).  Any text
outside this subset parses to a `SyntaxError`, which `execute` catches and
wraps exactly as any other fault. -/

inductive PExpr where
  | lit (v : Value)
  | ename (s : String)
  | attr (base : String) (field : String)
  | call0 (f : String)
  | call1 (f : String) (arg : PExpr)
deriving DecidableEq, Repr

inductive PStmt where
  | passign (x : String) (e : PExpr)
  | pif (c : PExpr) (thn : List PStmt)
  | praise (e : PExpr)
  | ptry (body : List PStmt) (excClass : String) (asName : String) (handler : List PStmt)

/-- Strip leading and trailing whitespace from characters. -/
def stripChars (l : List Char) : List Char :=
  ((l.dropWhile isPySpace).reverse.dropWhile isPySpace).reverse

/-- A plain identifier. -/
def identOk (l : List Char) : Bool :=
  !l.isEmpty && l.all isWordChar &&
    (match l.head? with
     | some c => !c.isDigit
     | none => false)

/-- Digit run to a number. -/
def digitsToNat (l : List Char) : Nat := l.foldl (fun a c => a * 10 + (c.toNat - 48)) 0

/-- Expression parser for the modelled subset. -/
def parsePExpr : Nat → List Char → Except String PExpr
  | 0, _ => .error "expression fuel exhausted"
  | f + 1, cs0 =>
    let cs := stripChars cs0
    if cs = "None".data then .ok (.lit .vnone)
    else if cs = "True".data then .ok (.lit (.vbool true))
    else if cs = "False".data then .ok (.lit (.vbool false))
    else if !cs.isEmpty && cs.all Char.isDigit then .ok (.lit (.vint (digitsToNat cs)))
    else if (match cs with
             | c :: r => isQuote c && r.getLast? = some c &&
                 r.dropLast.all (fun ch => !isQuote ch && ch ≠ '\n')
             | [] => false) then
      .ok (.lit (.vstr (String.mk (cs.drop 1).dropLast)))
    else if identOk cs then .ok (.ename (String.mk cs))
    else if cs.any (fun c => c = '(') && cs.getLast? = some ')' then
      let fn := cs.takeWhile (fun c => c ≠ '(')
      let inner := (cs.drop (fn.length + 1)).dropLast
      if identOk fn then
        if (stripChars inner).isEmpty then .ok (.call0 (String.mk fn))
        else (parsePExpr f inner).map (.call1 (String.mk fn))
      else .error "unsupported callee"
    else if cs.any (fun c => c = '.') then
      let base := cs.takeWhile (fun c => c ≠ '.')
      let fld := cs.drop (base.length + 1)
      if identOk base && identOk fld then .ok (.attr (String.mk base) (String.mk fld))
      else .error "unsupported attribute"
    else .error "unsupported expression"

/-- Split at the first assignment `=` (skipping `==`). -/
def feAux : List Char → Option (List Char × List Char)
  | [] => none
  | '=' :: rest =>
    match rest with
    | '=' :: r2 => (feAux r2).map (fun p => ('=' :: '=' :: p.1, p.2))
    | _ => some ([], rest)
  | c :: rest => (feAux rest).map (fun p => (c :: p.1, p.2))

/-- Parse an `except NAME as NAME:` clause head. -/
def splitAsAux : Nat → List Char → Option (List Char × List Char)
  | 0, _ => none
  | _ + 1, [] => none
  | f + 1, c :: r =>
    if (c :: r).take 4 = " as ".data then some ([], (c :: r).drop 4)
    else (splitAsAux f r).map (fun p => (c :: p.1, p.2))

/-- `except CLS as NAME:` recognition. -/
def parseExceptLine (t : List Char) : Option (String × String) :=
  if t.take 7 = "except ".data && t.getLast? = some ':' then
    let mid := stripChars (t.drop 7).dropLast
    match splitAsAux (mid.length + 1) mid with
    | some p =>
      let cls := stripChars p.1
      let nm := stripChars p.2
      if identOk cls && identOk nm then some (String.mk cls, String.mk nm) else none
    | none => none
  else none

/-- Indentation of a raw line (leading spaces). -/
def lineIndent (l : List Char) : Nat := (l.takeWhile (fun c => c = ' ')).length

/-- Non-blank lines with their indentation and stripped content. -/
def lineInfo (cs : List Char) : List (Nat × List Char) :=
  (splitLinesAux cs []).filterMap (fun l =>
    let t := stripChars l
    if t.isEmpty then none else some (lineIndent l, t))

/-- Block parser for the statement subset: parse the statements of the block
at indentation `ind`, returning them with the remaining lines (a dedent).
One fueled function; nested blocks are parsed by recursive calls at the
deeper indentation, as Python's indentation grammar prescribes. -/
def parseB : Nat → List (Nat × List Char) → Nat → Except String (List PStmt × List (Nat × List Char))
  | 0, _, _ => .error "block fuel exhausted"
  | _ + 1, [], _ => .ok ([], [])
  | f + 1, (i, t) :: rest, ind =>
    if i < ind then .ok ([], (i, t) :: rest)
    else if ind < i then .error "unexpected indent"
    else
      let stRes : Except String (PStmt × List (Nat × List Char)) :=
        if t = "try:".data then
          match rest with
          | (i1, t1) :: r1 =>
            if ind < i1 then
              match parseB f ((i1, t1) :: r1) i1 with
              | .error e => .error e
              | .ok (body, r2) =>
                match r2 with
                | (i2, t2) :: r3 =>
                  if i2 = ind then
                    match parseExceptLine t2 with
                    | some p =>
                      match r3 with
                      | (i3, t3) :: r4 =>
                        if ind < i3 then
                          match parseB f ((i3, t3) :: r4) i3 with
                          | .error e => .error e
                          | .ok (h, r5) => .ok (.ptry body p.1 p.2 h, r5)
                        else .error "expected an indented block"
                      | [] => .error "expected an indented block"
                    | none => .error "expected except clause"
                  else .error "expected except clause"
                | [] => .error "expected except clause"
            else .error "expected an indented block"
          | [] => .error "expected an indented block"
        else if t.take 3 = "if ".data && t.getLast? = some ':' then
          match parsePExpr (t.length + 1) (t.drop 3).dropLast with
          | .error e => .error e
          | .ok c =>
            match rest with
            | (i1, t1) :: r1 =>
              if ind < i1 then
                match parseB f ((i1, t1) :: r1) i1 with
                | .error e => .error e
                | .ok (thn, r2) => .ok (.pif c thn, r2)
              else .error "expected an indented block"
            | [] => .error "expected an indented block"
        else if t.take 6 = "raise ".data then
          (parsePExpr (t.length + 1) (t.drop 6)).map (fun e => (.praise e, rest))
        else
          match feAux t with
          | some lr =>
            let x := stripChars lr.1
            if identOk x then
              (parsePExpr (t.length + 1) lr.2).map (fun e => (.passign (String.mk x) e, rest))
            else .error "invalid assignment target"
          | none => .error "invalid syntax"
      match stRes with
      | .error e => .error e
      | .ok (st, rest2) =>
        match parseB f rest2 ind with
        | .error e => .error e
        | .ok (sts, rest3) => .ok (st :: sts, rest3)

/-- Parse a script text at top level (indentation 0). -/
def parsePy (code : String) : Except String (List PStmt) :=
  match parseB (2 * code.length + 16) (lineInfo code.data) 0 with
  | .error e => .error e
  | .ok (sts, []) => .ok sts
  | .ok (_, _ :: _) => .error "inconsistent dedent"

/-- Python's `NameError` for an unbound name. -/
def nameErrV (n : String) : Value :=
  .vexc "NameError"
    (.vstr ("name " ++ String.singleton squoteChar ++ n ++ String.singleton squoteChar ++
      " is not defined"))

/-- Expression evaluation over the namespace; faults are exception values. -/
def evalE (ns : Namespace) : PExpr → Except Value Value
  | .lit v => .ok v
  | .ename s =>
    match nsGet ns s with
    | some v => .ok v
    | none => .error (nameErrV s)
  | .attr b fld =>
    match nsGet ns b with
    | none => .error (nameErrV b)
    | some (.vexc _ payload) =>
      if fld = "value" then .ok payload
      else .error (.vexc "AttributeError" (.vstr "unsupported attribute"))
    | some _ => .error (.vexc "AttributeError" (.vstr "unsupported attribute"))
  | .call0 fn =>
    match nsGet ns fn with
    | none => .error (nameErrV fn)
    | some (.vclass c) => .ok (.vexc c .vnone)
    | some _ => .error (.vexc "TypeError" (.vstr "call not supported in model"))
  | .call1 fn a =>
    match nsGet ns fn with
    | none => .error (nameErrV fn)
    | some (.vclass c) => (evalE ns a).map (.vexc c)
    | some _ => .error (.vexc "TypeError" (.vstr "call not supported in model"))

/-- Python truthiness on the modelled values. -/
def truthy : Value → Bool
  | .vnone => false
  | .vbool b => b
  | .vint n => !(n = 0)
  | .vstr s => !s.data.isEmpty
  | _ => true

/-- `except CLS as _:` applicability: the clause name resolves to a class and
the raised instance is of that class. -/
def excMatch (ns : Namespace) (cls : String) : Value → Bool
  | .vexc c _ =>
    match nsGet ns cls with
    | some (.vclass c2) => c = c2
    | _ => false
  | _ => false

/-- Big-step execution of a statement block: the (mutated) namespace plus an
optional escaping exception.  Fueled; the subset has no loops, so fuel
proportional to the source size always suffices. -/
def runB : Nat → List PStmt → Namespace → Namespace × Option Value
  | 0, _, ns => (ns, some (.vexc "RecursionError" .vnone))
  | _ + 1, [], ns => (ns, none)
  | f + 1, st :: rest, ns =>
    match st with
    | .passign x e =>
      match evalE ns e with
      | .ok v => runB f rest (nsSet ns x v)
      | .error exc => (ns, some exc)
    | .praise e =>
      match evalE ns e with
      | .ok v => (ns, some v)
      | .error exc => (ns, some exc)
    | .pif c thn =>
      match evalE ns c with
      | .ok v =>
        if truthy v then
          match runB f thn ns with
          | (ns2, none) => runB f rest ns2
          | r => r
        else runB f rest ns
      | .error exc => (ns, some exc)
    | .ptry body cls nm handler =>
      match runB f body ns with
      | (ns2, none) => runB f rest ns2
      | (ns2, some exc) =>
        if excMatch ns2 cls exc then
          match runB f handler (nsSet ns2 nm exc) with
          | (ns3, none) => runB f rest ns3
          | r => r
        else (ns2, some exc)

/-- The variable names a statement block can bind (assignment targets and
exception binders), fueled exactly like the interpreter. -/
def assignedB : Nat → List PStmt → List String
  | 0, _ => []
  | _ + 1, [] => []
  | f + 1, st :: rest =>
    (match st with
     | .passign x _ => [x]
     | .pif _ thn => assignedB f thn
     | .praise _ => []
     | .ptry body _ nm handler => assignedB f body ++ nm :: assignedB f handler) ++
      assignedB f rest

/-- `exec(code, namespace, namespace)`: parse, then run; a parse failure is
the `SyntaxError` the Python `compile` step would raise. -/
def runStr (code : String) (ns : Namespace) : Except Value Namespace :=
  match parsePy code with
  | .error m => .error (.vexc "SyntaxError" (.vstr m))
  | .ok sts =>
    match runB (2 * code.length + 16) sts ns with
    | (ns2, none) => .ok ns2
    | (_, some exc) => .error exc

/-- `str(e)` on the modelled exception values. -/
def renderExc : Value → String
  | .vexc _ (.vstr m) => m
  | .vexc _ (.vint n) => toString n
  | _ => ""

/-- `ExecutionError` (context.py lines 279-281) as raised by `execute`:
the formatted message together with the `from e` cause. -/
structure ExecError where
  msg : String
  cause : Value
deriving DecidableEq, Repr

/-- The message of the wrapping `ExecutionError`. -/
def wrapMsg (e : Value) : String := "Error executing template code: " ++ renderExc e

/-- The setup `exec` defining the `__ScribeReturn__` signal class
(context.py lines 138-145), modelled as binding the class object. -/
def setupSignalClass (ns : Namespace) : Namespace :=
  nsSet ns "__ScribeReturn__" (.vclass "__ScribeReturn__")

/-- The tail of `execute`: read the well-known slot, mirror a non-None value
into `__return__`, and return it (context.py lines 178-185). -/
def finishExec (ns : Namespace) : Value × Namespace :=
  let rv := (nsGet ns "__scribe_return__").getD .vnone
  if rv = .vnone then (rv, ns) else (rv, nsSet ns "__return__" rv)

/-- `ExecutionContext.execute` (context.py lines 109-189): detect the exit
keyword, rewrite and wrap if present, run, and wrap any fault in an
`ExecutionError`. -/
def execute (code : String) (ns0 : Namespace) : Except ExecError (Value × Namespace) :=
  if hasReturnKw code then
    match runStr (wrapCode (subBareReturn (subReturnExpr code))) (setupSignalClass ns0) with
    | .ok ns2 => .ok (finishExec ns2)
    | .error e => .error ⟨wrapMsg e, e⟩
  else
    match runStr code ns0 with
    | .ok ns2 => .ok (finishExec ns2)
    | .error e => .error ⟨wrapMsg e, e⟩

/-- `ExecutionContext.has_return_value` (context.py lines 269-276). -/
def hasReturnValue (ns : Namespace) : Bool := (nsGet ns "__return__").isSome

inductive HandlerOutcome where
  | returned (v : Value)
  | rendered (bindings : List (String × Value))
deriving DecidableEq, Repr

/-- The decision fragment of `create_route_handler` (app.py lines 345-356):
run the script, return the captured exit value when `has_return_value`, else
hand the filtered bindings to template rendering. -/
def handlerStep (code : String) (ns : Namespace) : Except ExecError HandlerOutcome :=
  match execute code ns with
  | .error e => .error e
  | .ok (_, ns2) =>
    if hasReturnValue ns2 then .ok (.returned ((nsGet ns2 "__return__").getD .vnone))
    else .ok (.rendered (getVariables ns2))

/-- The handler's call `context.execute(route.python_code)` for a given
route (app.py lines 347-349). -/
def routeExecute (r : Route) (ns : Namespace) : Except ExecError (Value × Namespace) :=
  execute (r.python_code.getD "") ns

/-- A fresh per-request namespace as the handler builds it. -/
def freshNs (routeParams : List (String × Value)) : Namespace :=
  buildGlobals (.vobj "db") (.vobj "session") (.vobj "request") (.vobj "g") [] routeParams

/-! ### Concrete fixtures used by the claim theorems -/

/-- The spec's Scenario A source text. -/
def scenarioAInput : String :=
  "@route(\x27/hello\x27)\n\x7b$\nmessage = \x22hi\x22\n$\x7d\n<p>\x7b\x7bmessage\x7d\x7d</p>"

/-- The spec's Scenario D source text (script block missing its closing
marker): the block opens on line 2, column 1. -/
def scenarioDInput : String := "@route(\x27/a\x27)\n\x7b$\nx = 1\n"

/-- Scenario C's script body with the code's actual exit keyword. -/
def scenarioCScript : String := "if cond:\n    return 1\nval = 2"

/-- The post-run namespace of a one-assignment script in a fresh context. -/
def c3outNs : Namespace :=
  match runStr "a = 1" (freshNs []) with
  | .ok n => n
  | .error _ => []

/-- The parsed statements of the one-assignment witness script. -/
def c3stmts : List PStmt :=
  match parsePy "a = 1" with
  | .ok s => s
  | .error _ => []

/-- The post-run namespace of a script rebinding the builtin `len`. -/
def c9outNs : Namespace :=
  match execute "myf = len" (freshNs []) with
  | .ok p => p.2
  | .error _ => []

/-- Whether a character stream contains the two-character closing marker
(an adjacent `$`-closing-brace pair) anywhere. -/
def hasClose : List Char → Bool
  | c1 :: c2 :: r => (c1 = '$' && c2 = rbraceChar) || hasClose (c2 :: r)
  | _ => false

/-- A route at path `/a` whose script faults on an unbound name. -/
def failRouteA : Route := mkRoute "/a" ["GET"] [] (some "x = boom") (some "") 1

/-- The same failing script registered at a different path `/b`. -/
def failRouteB : Route := mkRoute "/b" ["GET"] [] (some "x = boom") (some "") 1

/-! ### Association-list lemmas for the namespace operations -/

theorem nsGet_nsSet_self (ns : Namespace) (k : String) (v : Value) :
    nsGet (nsSet ns k v) k = some v := by
  induction ns with
  | nil => simp [nsSet, nsGet, List.find?]
  | cons p t ih =>
    by_cases h : p.1 = k
    · simp [nsSet, h, nsGet, List.find?]
    · simp only [nsSet, if_neg h]
      simpa [nsGet, List.find?, h] using ih

theorem nsGet_nsSet_ne (ns : Namespace) (k k' : String) (v : Value)
    (h : k' ≠ k) : nsGet (nsSet ns k v) k' = nsGet ns k' := by
  have hne : ¬(k = k') := fun hh => h hh.symm
  induction ns with
  | nil => simp [nsSet, nsGet, List.find?, hne]
  | cons p t ih =>
    by_cases hp : p.1 = k
    · subst hp
      simp [nsSet, nsGet, List.find?, hne]
    · simp only [nsSet, if_neg hp]
      by_cases hp' : p.1 = k'
      · simp [nsGet, List.find?, hp']
      · simpa [nsGet, List.find?, hp'] using ih

theorem nsGet_nsUpdate_notMem (l : List (String × Value)) (ns : Namespace)
    (k : String) (h : ∀ p ∈ l, p.1 ≠ k) :
    nsGet (nsUpdate ns l) k = nsGet ns k := by
  induction l generalizing ns with
  | nil => simp [nsUpdate]
  | cons p t ih =>
    have hp : p.1 ≠ k := h p (by simp)
    have ht : ∀ q ∈ t, q.1 ≠ k := fun q hq => h q (by simp [hq])
    show nsGet (nsUpdate (nsSet ns p.1 p.2) t) k = nsGet ns k
    rw [ih (nsSet ns p.1 p.2) ht, nsGet_nsSet_ne _ _ _ _ (fun hh => hp hh.symm)]

theorem nsGet_nsUpdate_mem (l : List (String × Value)) (ns : Namespace)
    (k : String) (v : Value) (hnd : (l.map Prod.fst).Nodup)
    (hmem : (k, v) ∈ l) : nsGet (nsUpdate ns l) k = some v := by
  induction l generalizing ns with
  | nil => cases hmem
  | cons p t ih =>
    rcases List.mem_cons.mp hmem with heq | htl
    · have hpk : p.1 = k := by rw [← heq]
      have hpv : p.2 = v := by rw [← heq]
      have hnot : ∀ q ∈ t, q.1 ≠ k := by
        intro q hq hk
        exact (List.nodup_cons.mp hnd).1
          (by rw [hpk]; simpa [hk] using List.mem_map_of_mem Prod.fst hq)
      show nsGet (nsUpdate (nsSet ns p.1 p.2) t) k = some v
      rw [nsGet_nsUpdate_notMem t _ k hnot, hpk, hpv, nsGet_nsSet_self]
    · show nsGet (nsUpdate (nsSet ns p.1 p.2) t) k = some v
      exact ih (nsSet ns p.1 p.2) (List.nodup_cons.mp hnd).2 htl

theorem nsGet_eq_some_mem (l : List (String × Value)) (k : String) (v : Value)
    (h : nsGet l k = some v) : (k, v) ∈ l := by
  induction l with
  | nil => simp [nsGet, List.find?] at h
  | cons p t ih =>
    by_cases hp : p.1 = k
    · have hv : p.2 = v := by simpa [nsGet, List.find?, hp] using h
      exact List.mem_cons.mpr (Or.inl (by cases p; simp_all))
    · exact List.mem_cons_of_mem _ (ih (by simpa [nsGet, List.find?, hp] using h))

theorem nsGet_eq_none_forall (l : List (String × Value)) (k : String)
    (h : nsGet l k = none) : ∀ p ∈ l, p.1 ≠ k := by
  induction l with
  | nil => simp
  | cons p t ih =>
    by_cases hp : p.1 = k
    · simp [nsGet, List.find?, hp] at h
    · intro q hq
      rcases List.mem_cons.mp hq with rfl | htl
      · exact hp
      · exact ih (by simpa [nsGet, List.find?, hp] using h) q htl

example : pathParamsCode "/p/<int:id>" = ["id"] := by rfl
example : pathParamsCode "/posts/<int:post_id>/c/<name>" = ["post_id", "name"] := by rfl
example : pathParamsSpec "/p/<int:id>" = [("id", "int")] := by rfl
example : pathParamsSpec "/p/<id>" = [("id", "string")] := by rfl
example : parseRouteDecorator "@route(\x27/hello\x27)" = .ok ("/hello", ["GET"]) := by rfl
example :
    parseRouteDecorator "@route(\x27/x\x27, methods=[\x27get\x27, \x27Post\x27])" =
      .ok ("/x", ["GET", "POST"]) := by rfl
example :
    parseRouteDecorator "@route(\x22/x\x22, methods=[])" = .ok ("/x", ["GET"]) := by rfl

/-! ### Helper lemmas for the claim theorems -/

theorem methodsOf_nonempty (args : String) : methodsOf args ≠ [] := by
  unfold methodsOf
  cases hsm : searchMethods (args.length + 1) args.data with
  | none => simp
  | some inner =>
    cases hfq : findAllQuoted (inner.length + 1) inner with
    | nil => simp [hfq]
    | cons m ms => simp [hfq]

theorem methodsOf_shape (args : String) :
    methodsOf args = ["GET"] ∨
      ∃ l : List String, l ≠ [] ∧ methodsOf args = l.map pyUpper := by
  unfold methodsOf
  cases hsm : searchMethods (args.length + 1) args.data with
  | none => exact Or.inl rfl
  | some inner =>
    cases hfq : findAllQuoted (inner.length + 1) inner with
    | nil => exact Or.inl (by simp [hfq])
    | cons m ms => exact Or.inr ⟨m :: ms, by simp, by simp [hfq]⟩

theorem methodsOf_default (args : String)
    (h : searchMethods (args.length + 1) args.data = none) :
    methodsOf args = ["GET"] := by
  unfold methodsOf
  rw [h]

/-! ### Claim theorems -/

/-- C1, counterexample: the claim asserts that no later addition to the
namespace overrides a path parameter's binding, but `_add_safe_imports`
runs after the route parameters are merged and rebinds the four module
names; a path parameter named `json` bound to 7 is overridden by the
`json` module. -/
theorem C1_route_param_overridden :
    nsGet (buildGlobals .vnone .vnone .vnone .vnone [] [("json", Value.vint 7)]) "json" =
      some (Value.vmodule "json") ∧
    some (Value.vmodule "json") ≠ some (Value.vint 7) :=
  ⟨by rfl, by decide⟩

/-- C1, amended: for every name other than the four pre-imported module
names (datetime, json, re, math — which `_add_safe_imports` rebinds last,
overriding everything), the assembled namespace resolves conflicts in the
order path parameters over helpers over injected context objects over safe
builtins. -/
theorem C1_shadowing_order (name : String) (db s r g : Value)
    (H P : List (String × Value))
    (hmod : name ∉ (["datetime", "json", "re", "math"] : List String))
    (hH : (H.map Prod.fst).Nodup) (hP : (P.map Prod.fst).Nodup) :
    nsGet (buildGlobals db s r g H P) name =
      (match nsGet P name with
       | some v => some v
       | none =>
         match nsGet H name with
         | some v => some v
         | none =>
           if name = "db" then some db
           else if name = "session" then some s
           else if name = "request" then some r
           else if name = "g" then some g
           else nsGet safeBuiltins name) := by
  have h1 : name ≠ "datetime" := by intro hh; exact hmod (by simp [hh])
  have h2 : name ≠ "json" := by intro hh; exact hmod (by simp [hh])
  have h3 : name ≠ "re" := by intro hh; exact hmod (by simp [hh])
  have h4 : name ≠ "math" := by intro hh; exact hmod (by simp [hh])
  unfold buildGlobals
  rw [nsGet_nsSet_ne _ _ _ _ h4, nsGet_nsSet_ne _ _ _ _ h3,
    nsGet_nsSet_ne _ _ _ _ h2, nsGet_nsSet_ne _ _ _ _ h1]
  cases hp : nsGet P name with
  | some v =>
    rw [nsGet_nsUpdate_mem P _ name v hP (nsGet_eq_some_mem _ _ _ hp)]
  | none =>
    rw [nsGet_nsUpdate_notMem P _ name (nsGet_eq_none_forall _ _ hp)]
    cases hh : nsGet H name with
    | some w =>
      rw [nsGet_nsUpdate_mem H _ name w hH (nsGet_eq_some_mem _ _ _ hh)]
    | none =>
      rw [nsGet_nsUpdate_notMem H _ name (nsGet_eq_none_forall _ _ hh)]
      by_cases hg : name = "g"
      · subst hg; simp [nsGet_nsSet_self]
      · rw [nsGet_nsSet_ne _ _ _ _ hg]
        by_cases hr : name = "request"
        · subst hr; simp [nsGet_nsSet_self]
        · rw [nsGet_nsSet_ne _ _ _ _ hr]
          by_cases hs : name = "session"
          · subst hs; simp [nsGet_nsSet_self]
          · rw [nsGet_nsSet_ne _ _ _ _ hs]
            by_cases hdb : name = "db"
            · subst hdb; simp [nsGet_nsSet_self]
            · rw [nsGet_nsSet_ne _ _ _ _ hdb]
              simp [hdb, hs, hr, hg]

/-- C1 witness: the amended precedence instantiated on a concrete namespace
with one helper and one path parameter. -/
theorem C1_shadowing_order_witness :
    nsGet (buildGlobals (Value.vobj "db") (Value.vobj "session") (Value.vobj "request")
        (Value.vobj "g") [("h1", Value.vint 1)] [("post_id", Value.vint 2)]) "post_id" =
      some (Value.vint 2) :=
  (C1_shadowing_order "post_id" (Value.vobj "db") (Value.vobj "session")
      (Value.vobj "request") (Value.vobj "g") [("h1", Value.vint 1)]
      [("post_id", Value.vint 2)] (by decide) (by decide) (by decide)).trans (by rfl)

/-- C2, counterexample: `Route.__post_init__` keeps only the `name` group of
each placeholder, so the stored `path_parameters` carry no type tag — paths
`<int:id>` and `<string:id>` yield identical stored parameters even though
the claimed `{name, typeTag}` lists differ; in particular `pathParameters`
for `<int:id>` is `["id"]`, not `[{name: "id", typeTag: "int"}]`. -/
theorem C2_typeTag_not_stored :
    (mkRoute "/p/<int:id>" ["GET"] [] none none 1).path_parameters = ["id"] ∧
    (mkRoute "/p/<int:id>" ["GET"] [] none none 1).path_parameters =
      (mkRoute "/p/<string:id>" ["GET"] [] none none 1).path_parameters ∧
    pathParamsSpec "/p/<int:id>" = [("id", "int")] ∧
    pathParamsSpec "/p/<int:id>" ≠ pathParamsSpec "/p/<string:id>" :=
  ⟨by rfl, by rfl, by rfl, by decide⟩

/-- C2, amended: the route's `path_parameters` are exactly the names, in
left-to-right order, of the spec's `{name, typeTag}` placeholder list — the
type tag is matched by the extraction regex but discarded. -/
theorem C2_pathParams_names (path : String) (ms : List String) :
    (mkRoute path ms [] none none 1).path_parameters =
      (pathParamsSpec path).map Prod.fst := by
  show pathParamsCode path = (pathParamsSpec path).map Prod.fst
  unfold pathParamsCode pathParamsSpec
  rw [List.map_map]
  rfl

/-- Frame property of the interpreter: a name the statement block cannot
bind keeps its pre-execution value, whether the run completes or escapes
with an exception. -/
theorem runB_frame (f : Nat) :
    ∀ (sts : List PStmt) (ns : Namespace) (x : String),
      x ∉ assignedB f sts → nsGet (runB f sts ns).1 x = nsGet ns x := by
  induction f with
  | zero => intro sts ns x _; rfl
  | succ f ih =>
    intro sts ns x hx
    cases sts with
    | nil => rfl
    | cons st rest =>
      rw [runB.eq_def]
      cases st with
      | passign y e =>
        have hxy : x ≠ y := fun hh => hx (by simp [assignedB, hh])
        have hxr : x ∉ assignedB f rest := fun hh => hx (by simp [assignedB, hh])
        dsimp only
        cases he : evalE ns e with
        | ok v =>
          exact (ih rest _ x hxr).trans (nsGet_nsSet_ne _ _ _ _ hxy)
        | error exc => rfl
      | praise e =>
        dsimp only
        cases he : evalE ns e with
        | ok v => rfl
        | error exc => rfl
      | pif c thn =>
        have hxt : x ∉ assignedB f thn := fun hh => hx (by simp [assignedB, hh])
        have hxr : x ∉ assignedB f rest := fun hh => hx (by simp [assignedB, hh])
        dsimp only
        cases he : evalE ns c with
        | error exc => rfl
        | ok v =>
          dsimp only
          by_cases ht : truthy v = true
          · rw [if_pos ht]
            have hthn := ih thn ns x hxt
            cases hb : runB f thn ns with
            | mk ns2 oe =>
              rw [hb] at hthn
              cases oe with
              | none => exact (ih rest ns2 x hxr).trans hthn
              | some e2 => exact hthn
          · rw [if_neg ht]
            exact ih rest ns x hxr
      | ptry body cls nm handler =>
        have hxb : x ∉ assignedB f body := fun hh => hx (by simp [assignedB, hh])
        have hxn : x ≠ nm := fun hh => hx (by simp [assignedB, hh])
        have hxh : x ∉ assignedB f handler := fun hh => hx (by simp [assignedB, hh])
        have hxr : x ∉ assignedB f rest := fun hh => hx (by simp [assignedB, hh])
        dsimp only
        have hbody := ih body ns x hxb
        cases hb : runB f body ns with
        | mk ns2 oe =>
          rw [hb] at hbody
          cases oe with
          | none => exact (ih rest ns2 x hxr).trans hbody
          | some exc =>
            dsimp only
            by_cases hm : excMatch ns2 cls exc = true
            · rw [if_pos hm]
              have hstep : nsGet (nsSet ns2 nm exc) x = nsGet ns x :=
                (nsGet_nsSet_ne _ _ _ _ hxn).trans hbody
              have hhnd := ih handler (nsSet ns2 nm exc) x hxh
              cases hh : runB f handler (nsSet ns2 nm exc) with
              | mk ns3 oe2 =>
                rw [hh] at hhnd
                cases oe2 with
                | none => exact (ih rest ns3 x hxr).trans (hhnd.trans hstep)
                | some e3 => exact hhnd.trans hstep
            · rw [if_neg hm]
              exact hbody

/-- C3, counterexample: with a bound path parameter `post_id`, executing a
script that assigns only `message` returns bindings containing the path
parameter as well — the bindings are not exactly the variables the body
assigns. -/
theorem C3_route_param_in_bindings :
    (execute "message = 1" (freshNs [("post_id", Value.vint 5)])).map
        (fun p => (p.1, getVariables p.2)) =
      .ok (Value.vnone, [("post_id", Value.vint 5), ("message", Value.vint 1)]) ∧
    ([("post_id", Value.vint 5), ("message", Value.vint 1)] :
        List (String × Value)) ≠ [("message", Value.vint 1)] :=
  ⟨by rfl, by decide⟩

/-- C3, amended: for every script body in which the exit-keyword regex finds
no match, `execute` runs the text unmodified and returns an absent exit
value (provided the run leaves the internal slot unbound); the returned
bindings are exactly the post-run namespace entries passing the
`get_variables` filter — which admits bound path parameters and drops
assigned variables with reserved names or module/function/class values —
and every name the body cannot bind keeps its pre-execution value, so each
extra binding is a pre-existing entry such as a bound path parameter. -/
theorem C3_no_exit_unmodified (code : String) (ns ns2 : Namespace)
    (h1 : hasReturnKw code = false) (h2 : runStr code ns = .ok ns2)
    (h3 : nsGet ns2 "__scribe_return__" = none) :
    execute code ns = .ok (Value.vnone, ns2) ∧
    (∀ x v, (x, v) ∈ getVariables ns2 ↔ ((x, v) ∈ ns2 ∧ keepVar x v = true)) ∧
    (∀ sts x, parsePy code = .ok sts →
      x ∉ assignedB (2 * code.length + 16) sts → nsGet ns2 x = nsGet ns x) := by
  refine ⟨?_, ?_, ?_⟩
  · simp [execute, h1, h2, finishExec, h3]
  · intro x v
    simp [getVariables, List.mem_filter]
  · intro sts x hp hxa
    have hf := runB_frame (2 * code.length + 16) sts ns x hxa
    unfold runStr at h2
    rw [hp] at h2
    dsimp only at h2
    cases hb : runB (2 * code.length + 16) sts ns with
    | mk nsr oe =>
      rw [hb] at h2 hf
      cases oe with
      | none =>
        dsimp only at h2 hf
        cases h2
        exact hf
      | some e =>
        dsimp only at h2
        exact absurd h2 (by simp)

/-- C3 witness: the amended statement on the one-assignment script `a = 1`
in a fresh parameterless context. -/
theorem C3_no_exit_unmodified_witness :
    execute "a = 1" (freshNs []) = .ok (Value.vnone, c3outNs) ∧
    (("a", Value.vint 1) ∈ getVariables c3outNs ↔
      (("a", Value.vint 1) ∈ c3outNs ∧ keepVar "a" (Value.vint 1) = true)) ∧
    nsGet c3outNs "z" = nsGet (freshNs []) "z" := by
  have h := C3_no_exit_unmodified "a = 1" (freshNs []) c3outNs (by rfl) (by rfl) (by rfl)
  exact ⟨h.1, h.2.1 "a" (Value.vint 1), h.2.2 c3stmts "z" (by rfl) (by decide)⟩

/-- C4, confirmed (Scenario C, with the code's exit keyword `return`):
under `cond = true` the execute result is exit value 1 with `val` absent
from the bindings; under `cond = false` the exit value is absent and `val`
is bound to 2 in the bindings. -/
theorem C4_scenarioC_conditional_exit :
    (execute scenarioCScript (freshNs [("cond", Value.vbool true)])).map
        (fun p => (p.1, getVariables p.2)) =
      .ok (Value.vint 1, [("cond", Value.vbool true)]) ∧
    (execute scenarioCScript (freshNs [("cond", Value.vbool false)])).map
        (fun p => (p.1, getVariables p.2)) =
      .ok (Value.vnone, [("cond", Value.vbool false), ("val", Value.vint 2)]) :=
  ⟨by rfl, by rfl⟩

/-- C5, counterexample: duplicate verbs are not collapsed — the list
comprehension upper-cases every extracted token and keeps duplicates. -/
theorem C5_duplicates_not_collapsed :
    parseRouteDecorator "@route(\x27/x\x27, methods=[\x27get\x27, \x27get\x27])" =
      .ok ("/x", ["GET", "GET"]) ∧
    ¬(["GET", "GET"] : List String).Nodup :=
  ⟨by rfl, by decide⟩

/-- C5, amended: every successfully parsed route annotation yields a
non-empty methods list; it is `["GET"]` when no methods keyword argument is
found, and otherwise the upper-casing of the extracted quoted verbs —
duplicates are preserved, not collapsed. -/
theorem C5_methods_default_and_upper (s p : String) (ms : List String)
    (h : parseRouteDecorator s = .ok (p, ms)) :
    ms ≠ [] ∧ (methodsSearchOf s = none → ms = ["GET"]) ∧
      (ms = ["GET"] ∨ ∃ l : List String, l ≠ [] ∧ ms = l.map pyUpper) := by
  unfold parseRouteDecorator at h
  cases hra : routeArgs s with
  | none => rw [hra] at h; exact absurd h (by simp)
  | some a =>
    rw [hra] at h
    simp only at h
    cases hlq : leadingQuoted (pyStrip a).data with
    | none => rw [hlq] at h; exact absurd h (by simp)
    | some path =>
      rw [hlq] at h
      have hms : ms = methodsOf (pyStrip a) := by
        have := h
        simp only [Except.ok.injEq, Prod.mk.injEq] at this
        exact this.2.symm
      subst hms
      refine ⟨methodsOf_nonempty _, ?_, methodsOf_shape _⟩
      intro hnone
      apply methodsOf_default
      have : methodsSearchOf s =
          searchMethods ((pyStrip a).length + 1) (pyStrip a).data := by
        simp [methodsSearchOf, hra]
      rw [← this, hnone]

/-- C5 witness: the amended statement on a concrete annotation without a
methods keyword argument. -/
theorem C5_methods_default_and_upper_witness :
    (["GET"] : List String) ≠ [] ∧
    (methodsSearchOf "@route(\x27/hello\x27)" = none → (["GET"] : List String) = ["GET"]) :=
  let h := C5_methods_default_and_upper "@route(\x27/hello\x27)" "/hello" ["GET"] (by rfl)
  ⟨h.1, h.2.1⟩

theorem exceptMap_ok {ε α β : Type} (g : α → β) (e : Except ε α) (y : β)
    (h : e.map g = .ok y) : ∃ x, e = .ok x ∧ y = g x := by
  cases e with
  | error err => simp [Except.map] at h
  | ok x => exact ⟨x, rfl, by simpa [Except.map] using h.symm⟩

theorem getLast?_map_cons {α β : Type} (g : α → β) (a : α) (l : List α) (y : β)
    (h : l.getLast?.map g = some y) : (a :: l).getLast?.map g = some y := by
  cases l with
  | nil => simp at h
  | cons b r => simpa [List.getLast?_cons_cons] using h

/-- On every successful scan, the token list produced by the lexer loop ends
with an `EOF` token: the loop's only non-error exit emits it, and every
other branch prepends tokens to a successful recursive result. -/
theorem lexLoop_ok_eof (f : Nat) :
    ∀ rest line col w prev toks, lexLoop f rest line col w prev = .ok toks →
      toks.getLast?.map Tok.type = some TokType.EOF := by
  induction f with
  | zero =>
    intro rest line col w prev toks h
    simp [lexLoop] at h
  | succ f ih =>
    intro rest line col w prev toks h
    cases rest with
    | nil =>
      simp only [lexLoop, Except.ok.injEq] at h
      subst h
      rfl
    | cons c cs =>
      rw [lexLoop] at h
      dsimp only at h
      repeat' split at h
      all_goals
        first
        | exact ih _ _ _ _ _ _ h
        | (obtain ⟨ts, hrec, hy⟩ := exceptMap_ok _ _ _ h
           subst hy
           repeat apply getLast?_map_cons
           exact ih _ _ _ _ _ _ hrec)
        | simp at h
        | simp

/-- Without an adjacent closing pair in the remaining input, the
closing-marker scan fails. -/
theorem pyScan_none_of_no_close :
    ∀ (cs : List Char) (line col : Nat), hasClose cs = false →
      pyScan cs line col = none := by
  intro cs
  induction cs with
  | nil => intro l c _; rfl
  | cons c1 rest ih =>
    intro l c h
    cases rest with
    | nil => rfl
    | cons c2 r =>
      have h2 : ((c1 = '$' && c2 = rbraceChar) = false) ∧ hasClose (c2 :: r) = false := by
        have := h
        unfold hasClose at this
        exact ⟨by simp_all, by simp_all⟩
      rw [pyScan, if_neg (by simp [h2.1])]
      dsimp only
      rw [ih _ _ h2.2]
      rfl

/-- Whenever the scanner meets the script-block opening marker with no
closing marker anywhere in the remaining input, the scan fails with the
unterminated-block error naming the marker's line and the column two past
the marker's start. -/
theorem lexLoop_unclosed (f : Nat) (rest : List Char) (line col : Nat)
    (w : Bool) (prev : Option Char) (hpy : atPyStart rest = true)
    (hnc : hasClose (rest.drop 2) = false) :
    lexLoop (f + 1) rest line col w prev = .error ⟨line, col + 2⟩ := by
  match rest, hpy, hnc with
  | c1 :: c2 :: cs, hpy, hnc =>
    have hc1 : c1 = lbraceChar := by
      by_cases h1 : c1 = lbraceChar
      · exact h1
      · unfold atPyStart at hpy; simp [h1] at hpy
    have hc2 : c2 = '$' := by
      by_cases h2 : c2 = '$'
      · exact h2
      · unfold atPyStart at hpy; simp [h2] at hpy
    subst hc1
    subst hc2
    have hhl : isHTab lbraceChar = false := by decide
    have hws : List.takeWhile isHTab (lbraceChar :: '$' :: cs) = [] := by
      simp [List.takeWhile_cons, hhl]
    have hscan : pyScan (List.drop 2 (lbraceChar :: '$' :: cs)) line (col + 2) = none :=
      pyScan_none_of_no_close _ _ _ hnc
    rw [lexLoop]
    dsimp only
    rw [hws]
    simp only [List.length_nil, List.drop_zero]
    split
    · rename_i tail heq
      injection heq with h1 _
      exact absurd h1 (by decide)
    · rw [hpy, if_pos rfl, hscan]
    all_goals simp

/-- C6, counterexample: for an input whose script block opens at line 1,
column 1 with no closing marker, the `SyntaxError` names column 3 — the
column just past the two-character opening marker (the lexer records its
position after advancing over the marker), not the column at which the
block starts. -/
theorem C6_column_is_not_block_start :
    tokenize (String.mk [lbraceChar, '$', 'x']) = .error ⟨1, 3⟩ ∧ (3 : Nat) ≠ 1 :=
  ⟨by rfl, by decide⟩

/-- C6, amended: every successful tokenization yields a finite token
sequence terminated by `EndOfInput`; whenever the scanner meets the
script-block opening marker with no closing marker in the remaining input,
it fails with the unterminated-block `SyntaxError` naming the marker's line
and the column two past the marker's start (the block body's column, not
the marker's own column); in particular Scenario D's input fails naming
line 2, column 3 though its marker starts at column 1. -/
theorem C6_eof_terminated_or_unclosed :
    (∀ content toks, tokenize content = .ok toks →
      toks.getLast?.map Tok.type = some TokType.EOF) ∧
    (∀ (f : Nat) (rest : List Char) (line col : Nat) (w : Bool) (prev : Option Char),
      atPyStart rest = true → hasClose (rest.drop 2) = false →
      lexLoop (f + 1) rest line col w prev = .error ⟨line, col + 2⟩) ∧
    parse scenarioDInput = .error (.lexErr 2 3) := by
  refine ⟨?_, ?_, by rfl⟩
  · intro content toks h
    exact lexLoop_ok_eof _ _ _ _ _ _ _ h
  · intro f rest line col w prev h1 h2
    exact lexLoop_unclosed f rest line col w prev h1 h2

/-- C6 witness: the EOF-termination and the unclosed-marker error, each
instantiated on a concrete input. -/
theorem C6_eof_terminated_or_unclosed_witness :
    (([⟨TokType.TEMPLATE_CONTENT, "hi", 1, 1⟩, ⟨TokType.EOF, "", 1, 3⟩] :
        List Tok).getLast?).map Tok.type = some TokType.EOF ∧
    lexLoop 1 [lbraceChar, '$', 'x'] 1 1 true none = .error ⟨1, 3⟩ :=
  ⟨C6_eof_terminated_or_unclosed.1 "hi"
      [⟨TokType.TEMPLATE_CONTENT, "hi", 1, 1⟩, ⟨TokType.EOF, "", 1, 3⟩] (by rfl),
    C6_eof_terminated_or_unclosed.2.1 0 [lbraceChar, '$', 'x'] 1 1 true none
      (by decide) (by decide)⟩

/-- C7, counterexample: Scenario A's markup is not exactly
`<p>{{message}}</p>` — the newline after the closing script marker is kept
(only the newline after a decorator line is skipped), so the stored
template begins with a leading newline. -/
theorem C7_markup_has_leading_newline :
    (parse scenarioAInput).map (fun rs => rs.map Route.template) =
      .ok [some "\n<p>\x7b\x7bmessage\x7d\x7d</p>"] ∧
    some ("\n<p>\x7b\x7bmessage\x7d\x7d</p>" : String) ≠
      some ("<p>\x7b\x7bmessage\x7d\x7d</p>" : String) :=
  ⟨by rfl, by decide⟩

/-- C7, amended: Scenario A parses to exactly one route with path
`/hello`, methods `["GET"]`, script body exactly the text between the
markers (leading and trailing newline included), and markup exactly the
trailing text including the newline that follows the closing marker. -/
theorem C7_scenarioA_parse :
    parse scenarioAInput =
      .ok [{ path := "/hello", methods := ["GET"], decorators := [],
             python_code := some "\nmessage = \x22hi\x22\n",
             template := some "\n<p>\x7b\x7bmessage\x7d\x7d</p>",
             line_number := 1, source_file := none, path_parameters := [] }] := by
  rfl

/-- C8, counterexample: the `ExecutionError` raised by `execute` does not
preserve the originating route's identity — the execution context never
receives the route, so two routes with different paths but the same failing
script produce identical errors, and the wrapped error cannot identify
which route it came from. -/
theorem C8_error_lacks_route_identity :
    failRouteA.path ≠ failRouteB.path ∧
    routeExecute failRouteA (freshNs []) =
      .error ⟨wrapMsg (nameErrV "boom"), nameErrV "boom"⟩ ∧
    routeExecute failRouteA (freshNs []) = routeExecute failRouteB (freshNs []) :=
  ⟨by decide, by rfl, by rfl⟩

/-- C8, amended: every fault inside the script surfaces to the caller as an
`ExecutionError` whose message wraps the underlying cause
(`"Error executing template code: ..."`) and which carries that cause, and
nothing else is raised; the route's identity is not part of the error (the
handler in app.py logs `route.path` separately). -/
theorem C8_faults_wrapped (code : String) (ns : Namespace) :
    (∃ v ns2, execute code ns = .ok (v, ns2)) ∨
    (∃ e, execute code ns = .error ⟨wrapMsg e, e⟩) := by
  unfold execute
  by_cases h : hasReturnKw code
  · rw [if_pos h]
    cases hr : runStr (wrapCode (subBareReturn (subReturnExpr code)))
        (setupSignalClass ns) with
    | ok ns2 => exact Or.inl ⟨_, _, rfl⟩
    | error e => exact Or.inr ⟨e, rfl⟩
  · rw [if_neg h]
    cases hr : runStr code ns with
    | ok ns2 => exact Or.inl ⟨_, _, rfl⟩
    | error e => exact Or.inr ⟨e, rfl⟩

/-- C9, counterexample: the bindings can contain a value that is a function:
`get_variables` filters only `types.FunctionType`, and a builtin function
such as `len` rebound to a fresh name is a `BuiltinFunctionType`, which
passes the filter. -/
theorem C9_builtin_function_value_leaks :
    execute "myf = len" (freshNs []) = .ok (Value.vnone, c9outNs) ∧
    ("myf", Value.vbuiltinFun "len") ∈ getVariables c9outNs ∧
    isFunctionValue (Value.vbuiltinFun "len") = true :=
  ⟨by rfl, by decide, by rfl⟩

/-- C9, amended: every binding returned for rendering has a key that does
not start with an underscore (so the internal exit slots never leak), is
none of the four injected context names, is not a safe-builtin name, and a
value that is neither a module nor a user-defined Python function
(`types.FunctionType`) nor a class; builtin-function values can still
appear. -/
theorem C9_bindings_filter_guarantees (ns : Namespace) (x : String) (v : Value)
    (h : (x, v) ∈ getVariables ns) :
    startsUnderscore x = false ∧
    x ∉ (["db", "session", "request", "g"] : List String) ∧
    nsGet safeBuiltins x = none ∧
    isModuleV v = false ∧ isPyFunV v = false ∧ isClassV v = false := by
  have hk : keepVar x v = true := (List.mem_filter.mp h).2
  unfold keepVar at hk
  simp only [Bool.and_eq_true, Bool.not_eq_true'] at hk
  obtain ⟨⟨⟨⟨⟨h1, h2⟩, h3⟩, h4⟩, h5⟩, h6⟩ := hk
  refine ⟨h6, ?_, ?_, h3, h4, h5⟩
  · intro hx
    simp only [List.mem_cons, List.not_mem_nil, or_false] at hx
    rcases hx with hx | hx | hx | hx
    all_goals subst hx
    all_goals simp at h2
  · cases hg : nsGet safeBuiltins x with
    | none => rfl
    | some w => rw [hg] at h1; simp at h1

/-- C9 witness: the filter guarantees on a concrete singleton namespace. -/
theorem C9_bindings_filter_guarantees_witness :
    (("a", Value.vint 1) ∈ getVariables [("a", Value.vint 1)]) ∧
    (startsUnderscore "a" = false ∧
      "a" ∉ (["db", "session", "request", "g"] : List String) ∧
      nsGet safeBuiltins "a" = none ∧
      isModuleV (Value.vint 1) = false ∧ isPyFunV (Value.vint 1) = false ∧
      isClassV (Value.vint 1) = false) :=
  ⟨by decide, C9_bindings_filter_guarantees [("a", Value.vint 1)] "a" (Value.vint 1)
    (by decide)⟩

/-- C10, confirmed: an exit statement carrying `None` is indistinguishable
from the absence of any exit at the public interface — `execute` returns
`None` either way, `has_return_value` is false either way, and the handler
proceeds to render the markup with the same bindings in both cases. -/
theorem C10_exit_none_indistinguishable :
    (execute "x = 1\nreturn None" (freshNs [])).map Prod.fst = .ok Value.vnone ∧
    (execute "x = 1" (freshNs [])).map Prod.fst = .ok Value.vnone ∧
    (execute "x = 1\nreturn None" (freshNs [])).map (fun p => hasReturnValue p.2) =
      .ok false ∧
    (execute "x = 1" (freshNs [])).map (fun p => hasReturnValue p.2) = .ok false ∧
    handlerStep "x = 1\nreturn None" (freshNs []) =
      .ok (.rendered [("x", Value.vint 1)]) ∧
    handlerStep "x = 1" (freshNs []) = .ok (.rendered [("x", Value.vint 1)]) :=
  ⟨by rfl, by rfl, by rfl, by rfl, by rfl, by rfl⟩

end Scribe
